import Mathlib

/-!
Verification of the edgehog-device-runtime core against its specification.

The development shallowly embeds three subsystems:

* the remote-access forwarder codec
  (src/edgehog-device-runtime-forwarder/src/messages.rs),
* the OTA state machine, handler and startup logic
  (pinned by src/src/ota/ota_handler_test.rs; the engine itself is not part of
  the provided sources, so those definitions are modelled from the spec and the
  behaviour the tests pin down),
* the container image resource reconciler
  (src/edgehog-device-runtime-containers/src/resource/image.rs and
  src/edgehog-device-runtime-containers/src/properties/mod.rs).

Machine integers are modelled as Nat with explicit bounds where overflow or
range checks matter; fallible Rust functions become Except values.
-/

set_option linter.unusedVariables false

deriving instance DecidableEq for Except

namespace Edgehog

namespace Forwarder

/-- Byte strings (Rust `Vec<u8>`); each element is a byte value below 256 where
that bound matters. -/
abbrev Bytes := List Nat

/-- Errors of the forwarder codec (`ProtocolError` in messages.rs); only the
variants reachable in the modelled code paths are kept. -/
inductive ProtocolError where
  | Decode
  | Empty
  | InvalidHttpMethod
  | InvalidStatusCode
  | ParseHeaders
  | InvalidPortNumber
  | WrongWsFrame
deriving DecidableEq

/-- Requests Id (`struct Id(Vec<u8>)` in messages.rs). -/
structure Id where
  bytes : Bytes
deriving DecidableEq

/-- Lower-case hex digit of a nibble below 16 (the alphabet used by
`hex::encode`): 0-9 then a-f. -/
def hexChar (n : Nat) : Char :=
  if n < 10 then Char.ofNat (48 + n) else Char.ofNat (87 + n)

/-- Hex encoding of a byte string, two lower-case digits per byte
(models `hex::encode`, used by the Display impl of Id). -/
def hexEncodeChars : Bytes → List Char
  | [] => []
  | b :: bs => hexChar (b / 16) :: hexChar (b % 16) :: hexEncodeChars bs

/-- Display form of an `Id` (impl Display for Id in messages.rs): the
lower-case hex encoding of the bytes. -/
def Id.display (i : Id) : String := String.mk (hexEncodeChars i.bytes)

/-- Value of a single hex digit character; `hex::decode` accepts both cases. -/
def hexVal (c : Char) : Option Nat :=
  if 48 ≤ c.toNat ∧ c.toNat ≤ 57 then some (c.toNat - 48)
  else if 97 ≤ c.toNat ∧ c.toNat ≤ 102 then some (c.toNat - 87)
  else if 65 ≤ c.toNat ∧ c.toNat ≤ 70 then some (c.toNat - 55)
  else none

/-- Hex decoding of a character list, two digits per byte (models
`hex::decode`). -/
def hexDecodeChars : List Char → Option Bytes
  | [] => some []
  | [_] => none
  | c1 :: c2 :: rest =>
    match hexVal c1, hexVal c2, hexDecodeChars rest with
    | some hi, some lo, some bs => some ((16 * hi + lo) :: bs)
    | _, _, _ => none

/-- Hex decoding of a string (models `hex::decode` applied to a display
form). -/
def hexDecode (s : String) : Option Bytes := hexDecodeChars s.data

/-- A character is a lower-case hex digit: 0-9 or a-f. -/
def isLowerHexChar (c : Char) : Bool :=
  (48 ≤ c.toNat && c.toNat ≤ 57) || (97 ≤ c.toNat && c.toNat ≤ 102)

/-- TryFrom Vec u8 for Id (messages.rs): empty byte strings are rejected
with `ProtocolError::Empty`. -/
def Id.tryFrom (v : Bytes) : Except ProtocolError Id :=
  if v.isEmpty then .error .Empty else .ok ⟨v⟩

/-- UTF-8 bytes of the replacement character U+FFFD, emitted by the lossy
conversion for each invalid sequence. -/
def replacementBytes : Bytes := [239, 191, 189]

/-- Classify a UTF-8 lead byte. `some none` is a valid single-byte scalar,
`some (some (k, lo, hi))` is a lead expecting `k` continuation bytes the first
of which must lie in `lo..=hi`, and `none` is an invalid lead byte. -/
def utf8LeadKind (b : Nat) : Option (Option (Nat × Nat × Nat)) :=
  if b < 128 then some none
  else if 194 ≤ b ∧ b ≤ 223 then some (some (1, 128, 191))
  else if b = 224 then some (some (2, 160, 191))
  else if 225 ≤ b ∧ b ≤ 236 then some (some (2, 128, 191))
  else if b = 237 then some (some (2, 128, 159))
  else if 238 ≤ b ∧ b ≤ 239 then some (some (2, 128, 191))
  else if b = 240 then some (some (3, 144, 191))
  else if 241 ≤ b ∧ b ≤ 243 then some (some (3, 128, 191))
  else if b = 244 then some (some (3, 128, 143))
  else none

/-- State of the lossy UTF-8 scanner: `none` between scalars, otherwise the
pending bytes of a partially read sequence together with the remaining count
and the admissible range of the next byte. -/
abbrev Utf8State := Option (Bytes × Nat × Nat × Nat)

/-- One lead byte step of the lossy conversion: emit the byte (ASCII), open a
multi-byte sequence, or emit a replacement character for an invalid lead. -/
def utf8LeadStep (b : Nat) : Bytes × Utf8State :=
  match utf8LeadKind b with
  | some none => ([b], none)
  | some (some (k, lo, hi)) => ([], some ([b], k, lo, hi))
  | none => (replacementBytes, none)

/-- One step of the lossy conversion on an arbitrary state. On a continuation
mismatch the valid prefix read so far is replaced by one replacement character
(Rust replaces each maximal valid subpart) and the offending byte is
reinterpreted as a lead. -/
def utf8Step : Utf8State → Nat → Bytes × Utf8State
  | none, b => utf8LeadStep b
  | some (buf, need, lo, hi), b =>
    if lo ≤ b ∧ b ≤ hi then
      if need ≤ 1 then (buf ++ [b], none)
      else ([], some (buf ++ [b], need - 1, 128, 191))
    else
      let s := utf8LeadStep b
      (replacementBytes ++ s.1, s.2)

/-- Run the lossy scanner over a byte list; a sequence left unfinished at the
end of input becomes one replacement character. -/
def utf8LossyAux : Utf8State → Bytes → Bytes
  | none, [] => []
  | some _, [] => replacementBytes
  | st, b :: rest =>
    let s := utf8Step st b
    s.1 ++ utf8LossyAux s.2 rest

/-- Models Rust std `String::from_utf8_lossy` (library code outside src/) at
the byte level: valid input is returned unchanged, each maximal invalid
subsequence part becomes a U+FFFD replacement character. -/
def utf8Lossy (l : Bytes) : Bytes := utf8LossyAux none l

/-- Validity scanner for UTF-8 byte lists, mirroring `utf8Lossy`: state is the
remaining continuation count and admissible range of the next byte. -/
def utf8ValidAux : Option (Nat × Nat × Nat) → Bytes → Bool
  | none, [] => true
  | some _, [] => false
  | none, b :: rest =>
    match utf8LeadKind b with
    | some none => utf8ValidAux none rest
    | some (some st) => utf8ValidAux (some st) rest
    | none => false
  | some (k, lo, hi), b :: rest =>
    if lo ≤ b ∧ b ≤ hi then
      utf8ValidAux (if k ≤ 1 then none else some (k - 1, 128, 191)) rest
    else false

/-- A byte list is valid UTF-8. -/
def isUtf8 (l : Bytes) : Bool := utf8ValidAux none l

/-- HTTP header map, modelled canonically as an association list holding, per
header name, the name's values in insertion order. Rust `http::HeaderMap` is a
multimap whose equality ignores key order; the canonical list form fixes one
order. -/
abbrev HeaderMap := List (String × List Bytes)

/-- The protobuf `map<string,string>` of headers (Rust `HashMap<String,
String>`), modelled as an association list with (by construction) at most one
value per key; values are the UTF-8 bytes of the protobuf string. -/
abbrev HashMapSS := List (String × Bytes)

/-- A character admissible in a (lower-cased) header name: a-z, 0-9, dash,
underscore or dot. -/
def isValidHeaderNameChar (c : Char) : Bool :=
  (97 ≤ c.toNat && c.toNat ≤ 122) || (48 ≤ c.toNat && c.toNat ≤ 57) ||
    c.toNat = 45 || c.toNat = 95 || c.toNat = 46

/-- A string parses as a header name (http crate `HeaderName`). -/
def isValidHeaderName (s : String) : Bool :=
  !s.isEmpty && s.data.all isValidHeaderNameChar

/-- A byte admissible inside a header value (http crate `HeaderValue`): tab,
or any byte from 32 up except DEL. -/
def isValidHeaderValueByte (b : Nat) : Bool :=
  b = 9 || (32 ≤ b && b ≠ 127 && b < 256)

/-- A byte string is a legal header value. -/
def isValidHeaderValue (v : Bytes) : Bool := v.all isValidHeaderValueByte

/-- `headermap_to_hashmap` (messages.rs): iterate every (name, value) pair of
the header map into a HashMap keyed by name, so for each name only the last of
its values survives, and the value bytes go through the lossy UTF-8
conversion (`String::from_utf8_lossy`). -/
def headermap_to_hashmap (hm : HeaderMap) : HashMapSS :=
  hm.map (fun e => (e.1, utf8Lossy (e.2.getLast?.getD [])))

/-- The http crate conversion of the protobuf string map back into a header
map, used by the TryFrom impls via `(&headers).try_into()`: every key must
parse as a header name and every value as a header value, and each name ends
up with the single value the map holds for it. -/
def hashmap_to_headermap (m : HashMapSS) : Except ProtocolError HeaderMap :=
  if m.all (fun e => isValidHeaderName e.1 && isValidHeaderValue e.2) then
    .ok (m.map (fun e => (e.1, [e.2])))
  else .error .ParseHeaders

/-- A character admissible in an HTTP method token (restricted model: ASCII
letters, digits, dash, underscore, dot). -/
def isTokenChar (c : Char) : Bool :=
  (65 ≤ c.toNat && c.toNat ≤ 90) || (97 ≤ c.toNat && c.toNat ≤ 122) ||
    (48 ≤ c.toNat && c.toNat ≤ 57) || c.toNat = 45 || c.toNat = 95 || c.toNat = 46

/-- A string parses as an HTTP method (http crate `Method`); parsing preserves
the string, so the method round-trips as its token text. -/
def isValidMethod (s : String) : Bool := !s.isEmpty && s.data.all isTokenChar

/-- `HttpRequest` (messages.rs): method modelled as its token string, port as
a Nat below 65536 (u16). -/
structure HttpRequest where
  method : String
  path : String
  query_string : String
  headers : HeaderMap
  body : Bytes
  port : Nat
deriving DecidableEq

/-- `HttpResponse` (messages.rs): the status code is a Nat; the Rust
`http::StatusCode` type only holds values in 100..=999. -/
structure HttpResponse where
  status_code : Nat
  headers : HeaderMap
  body : Bytes
deriving DecidableEq

/-- `HttpMessage` (messages.rs). -/
inductive HttpMessage where
  | Request (req : HttpRequest)
  | Response (res : HttpResponse)
deriving DecidableEq

/-- `Http` (messages.rs). -/
structure Http where
  request_id : Id
  http_msg : HttpMessage
deriving DecidableEq

/-- `WebSocketMessage` (messages.rs); the close code is a u16. -/
inductive WebSocketMessage where
  | Text (data : String)
  | Binary (data : Bytes)
  | Ping (data : Bytes)
  | Pong (data : Bytes)
  | Close (code : Nat) (reason : Option String)
deriving DecidableEq

/-- `WebSocket` (messages.rs). -/
structure WebSocket where
  socket_id : Id
  message : WebSocketMessage
deriving DecidableEq

/-- `ProtoMessage` (messages.rs). -/
inductive ProtoMessage where
  | Http (h : Http)
  | WebSocket (ws : WebSocket)
deriving DecidableEq

/-- Modelled from the spec: the generated protobuf struct
`http::Request` of the edgehog-device-forwarder-proto crate (not under src/),
per the wire format of section 6: strings, bytes, a string map of headers and
a u32 port. -/
structure ProtobufHttpRequest where
  path : String
  method : String
  query_string : String
  headers : HashMapSS
  body : Bytes
  port : Nat
deriving DecidableEq

/-- Modelled from the spec: the generated protobuf struct `http::Response`
(edgehog-device-forwarder-proto, not under src/); status_code is a u32. -/
structure ProtobufHttpResponse where
  status_code : Nat
  headers : HashMapSS
  body : Bytes
deriving DecidableEq

/-- Modelled from the spec: the protobuf HTTP sub-oneof of Request and
Response. -/
inductive ProtobufHttpMessage where
  | Request (r : ProtobufHttpRequest)
  | Response (r : ProtobufHttpResponse)
deriving DecidableEq

/-- Modelled from the spec: the generated protobuf struct `Http`; the inner
message is optional on the wire. -/
structure ProtobufHttp where
  request_id : Bytes
  message : Option ProtobufHttpMessage
deriving DecidableEq

/-- Modelled from the spec: the protobuf WebSocket close payload with a u32
code and a (possibly empty) reason string. -/
structure ProtobufWsClose where
  code : Nat
  reason : String
deriving DecidableEq

/-- Modelled from the spec: the protobuf WebSocket message oneof. -/
inductive ProtobufWsMessage where
  | Text (data : String)
  | Binary (data : Bytes)
  | Ping (data : Bytes)
  | Pong (data : Bytes)
  | Close (c : ProtobufWsClose)
deriving DecidableEq

/-- Modelled from the spec: the generated protobuf struct `WebSocket`; the
inner message is optional on the wire. -/
structure ProtobufWebSocket where
  socket_id : Bytes
  message : Option ProtobufWsMessage
deriving DecidableEq

/-- Modelled from the spec: the protobuf top-level oneof protocol. -/
inductive ProtobufProtocol where
  | Http (h : ProtobufHttp)
  | Ws (w : ProtobufWebSocket)
deriving DecidableEq

/-- Modelled from the spec: the protobuf top-level `Message` with its optional
protocol field. -/
structure ProtobufMessage where
  protocol : Option ProtobufProtocol
deriving DecidableEq

/-- impl From HttpRequest for ProtobufHttpRequest (messages.rs): headers go
through `headermap_to_hashmap`, everything else is carried over (the u16 port
widens into a u32). -/
def HttpRequest.toProtobuf (r : HttpRequest) : ProtobufHttpRequest :=
  { path := r.path
    method := r.method
    query_string := r.query_string
    headers := headermap_to_hashmap r.headers
    body := r.body
    port := r.port }

/-- impl TryFrom ProtobufHttpRequest for HttpRequest (messages.rs): the method
string must parse, the headers must convert back, and the u32 port must fit in
a u16. -/
def HttpRequest.ofProtobuf (p : ProtobufHttpRequest) : Except ProtocolError HttpRequest :=
  if isValidMethod p.method then
    match hashmap_to_headermap p.headers with
    | .ok hs =>
      if p.port < 65536 then
        .ok { path := p.path
              method := p.method
              query_string := p.query_string
              headers := hs
              body := p.body
              port := p.port }
      else .error .InvalidPortNumber
    | .error e => .error e
  else .error .InvalidHttpMethod

/-- impl From HttpResponse for ProtobufHttpResponse (messages.rs). -/
def HttpResponse.toProtobuf (r : HttpResponse) : ProtobufHttpResponse :=
  { status_code := r.status_code
    headers := headermap_to_hashmap r.headers
    body := r.body }

/-- impl TryFrom ProtobufHttpResponse for HttpResponse (messages.rs): the u32
status code must fit in a u16 and be a legal status code (100..=999), and the
headers must convert back. -/
def HttpResponse.ofProtobuf (p : ProtobufHttpResponse) : Except ProtocolError HttpResponse :=
  if p.status_code < 65536 then
    if 100 ≤ p.status_code ∧ p.status_code ≤ 999 then
      match hashmap_to_headermap p.headers with
      | .ok hs => .ok { status_code := p.status_code, headers := hs, body := p.body }
      | .error e => .error e
    else .error .InvalidStatusCode
  else .error .InvalidPortNumber

/-- impl From Http for ProtobufHttp (messages.rs). -/
def Http.toProtobuf (h : Http) : ProtobufHttp :=
  { request_id := h.request_id.bytes
    message := some (match h.http_msg with
      | .Request r => .Request r.toProtobuf
      | .Response r => .Response r.toProtobuf) }

/-- impl TryFrom ProtobufHttp for Http (messages.rs): an empty request id and
a missing inner message are both `Empty`. -/
def Http.ofProtobuf (p : ProtobufHttp) : Except ProtocolError Http :=
  match Id.tryFrom p.request_id with
  | .error e => .error e
  | .ok rid =>
    match p.message with
    | none => .error .Empty
    | some (.Request r) =>
      match HttpRequest.ofProtobuf r with
      | .ok req => .ok { request_id := rid, http_msg := .Request req }
      | .error e => .error e
    | some (.Response r) =>
      match HttpResponse.ofProtobuf r with
      | .ok res => .ok { request_id := rid, http_msg := .Response res }
      | .error e => .error e

/-- impl From WebSocket for ProtobufWebSocket (messages.rs): a missing close
reason is sent as the empty string (`reason.unwrap_or_default()`). -/
def WebSocket.toProtobuf (w : WebSocket) : ProtobufWebSocket :=
  { socket_id := w.socket_id.bytes
    message := some (match w.message with
      | .Text d => .Text d
      | .Binary d => .Binary d
      | .Ping d => .Ping d
      | .Pong d => .Pong d
      | .Close code reason => .Close { code := code, reason := reason.getD "" }) }

/-- impl TryFrom ProtobufWebSocket for WebSocket (messages.rs): a missing
inner message is `Empty`; the close code must fit in a u16 and an empty close
reason becomes `none` (`close.reason.is_empty().not().then_some(...)`); the
socket id is checked last, as in the source. -/
def WebSocket.ofProtobuf (p : ProtobufWebSocket) : Except ProtocolError WebSocket :=
  match p.message with
  | none => .error .Empty
  | some m =>
    let msg : Except ProtocolError WebSocketMessage :=
      match m with
      | .Text d => .ok (.Text d)
      | .Binary d => .ok (.Binary d)
      | .Ping d => .ok (.Ping d)
      | .Pong d => .ok (.Pong d)
      | .Close c =>
        if c.code < 65536 then
          .ok (.Close c.code (if c.reason = "" then none else some c.reason))
        else .error .InvalidPortNumber
    match msg with
    | .error e => .error e
    | .ok message =>
      match Id.tryFrom p.socket_id with
      | .error e => .error e
      | .ok sid => .ok { socket_id := sid, message := message }

/-- impl From ProtoMessage for ProtobufProtocol (messages.rs). -/
def ProtoMessage.toProtobufProtocol : ProtoMessage → ProtobufProtocol
  | .Http h => .Http h.toProtobuf
  | .WebSocket w => .Ws w.toProtobuf

/-- impl TryFrom ProtobufProtocol for ProtoMessage (messages.rs). -/
def ProtoMessage.ofProtobufProtocol : ProtobufProtocol → Except ProtocolError ProtoMessage
  | .Http h =>
    match Http.ofProtobuf h with
    | .ok x => .ok (.Http x)
    | .error e => .error e
  | .Ws w =>
    match WebSocket.ofProtobuf w with
    | .ok x => .ok (.WebSocket x)
    | .error e => .error e

/-- `ProtoMessage::encode` (messages.rs), modelled at the protobuf-struct
level: the prost byte serialization of the generated structs (crate code
outside src/) is a faithful bijection onto its image, so encoding is the
conversion into the protobuf struct with the protocol field set. -/
def ProtoMessage.encode (m : ProtoMessage) : ProtobufMessage :=
  { protocol := some m.toProtobufProtocol }

/-- `ProtoMessage::decode` (messages.rs), modelled at the protobuf-struct
level (see `ProtoMessage.encode`): a missing protocol is `Empty`, otherwise
the TryFrom conversion chain runs. -/
def ProtoMessage.decode (pm : ProtobufMessage) : Except ProtocolError ProtoMessage :=
  match pm.protocol with
  | none => .error .Empty
  | some p => ProtoMessage.ofProtobufProtocol p

/-- Well-formedness exactly as claim C2 words it: an Http message with a
non-empty request id, or a WebSocket message with a non-empty socket id. -/
def claimWellFormed : ProtoMessage → Bool
  | .Http h => !h.request_id.bytes.isEmpty
  | .WebSocket w => !w.socket_id.bytes.isEmpty

/-- A header entry that survives the protobuf round-trip: a valid name
carrying exactly one value that is a fixed point of the lossy UTF-8
conversion (hence valid UTF-8) and a legal header value. -/
def headerEntryRT (e : String × List Bytes) : Bool :=
  isValidHeaderName e.1 &&
    (match e.2 with
     | [v] => (utf8Lossy v == v) && isValidHeaderValue v
     | _ => false)

/-- All header entries survive the protobuf round-trip. -/
def headersRT (hm : HeaderMap) : Bool := hm.all headerEntryRT

/-- Round-trip well-formedness of a request: valid method token, round-trip
headers, u16 port. -/
def wfHttpRequest (r : HttpRequest) : Bool :=
  isValidMethod r.method && headersRT r.headers && r.port < 65536

/-- Round-trip well-formedness of a response: legal status code and
round-trip headers. -/
def wfHttpResponse (r : HttpResponse) : Bool :=
  (100 ≤ r.status_code && r.status_code ≤ 999) && headersRT r.headers

/-- Round-trip well-formedness of a WebSocket payload: a close needs a u16
code and its reason must not be the empty string (which decodes to none). -/
def wfWsMessage : WebSocketMessage → Bool
  | .Close code reason => code < 65536 && !(reason == some "")
  | _ => true

/-- Round-trip well-formedness of a whole message: the claim's conditions
plus the type-faithful bounds and the header and close-reason restrictions
the codec actually needs. -/
def wfProtoMessage : ProtoMessage → Bool
  | .Http h =>
    !h.request_id.bytes.isEmpty &&
      (match h.http_msg with
       | .Request r => wfHttpRequest r
       | .Response r => wfHttpResponse r)
  | .WebSocket w => !w.socket_id.bytes.isEmpty && wfWsMessage w.message

/-- A tungstenite close frame (`CloseFrame`); the close code converts into a
u16. -/
structure CloseFrame where
  code : Nat
  reason : String
deriving DecidableEq

/-- Tungstenite `Message` (library type, modelled by shape): the `Frame`
variant carries a raw frame whose payload is irrelevant here. -/
inductive TungMessage where
  | Text (data : String)
  | Binary (data : Bytes)
  | Ping (data : Bytes)
  | Pong (data : Bytes)
  | Close (frame : Option CloseFrame)
  | Frame
deriving DecidableEq

/-- impl TryFrom TungMessage for WebSocketMessage (messages.rs): a close with
a frame keeps code and reason (the reason is always `some`), a close without a
frame becomes the default close 1000 with no reason, and a raw `Frame` is
rejected with `WrongWsFrame`. -/
def WebSocketMessage.tryFromTung : TungMessage → Except ProtocolError WebSocketMessage
  | .Text d => .ok (.Text d)
  | .Binary d => .ok (.Binary d)
  | .Ping d => .ok (.Ping d)
  | .Pong d => .ok (.Pong d)
  | .Close (some f) => .ok (.Close f.code (some f.reason))
  | .Close none => .ok (.Close 1000 none)
  | .Frame => .error .WrongWsFrame

/-- impl From WebSocketMessage for TungMessage (messages.rs): every close is
emitted with a frame (missing reason becomes the empty string); no variant
maps to `Frame`. -/
def WebSocketMessage.toTung : WebSocketMessage → TungMessage
  | .Text d => .Text d
  | .Binary d => .Binary d
  | .Ping d => .Ping d
  | .Pong d => .Pong d
  | .Close code reason => .Close (some { code := code, reason := reason.getD "" })

/-- Recognizer for the raw `Frame` variant of a tungstenite message. -/
def TungMessage.isFrame : TungMessage → Bool
  | .Frame => true
  | _ => false

/-- Sample message: a close whose reason is some empty string. -/
def closeEmptyReasonMsg : ProtoMessage := .WebSocket { socket_id := ⟨[1]⟩, message := .Close 1000 (some "") }

/-- Sample request whose header name a carries the two values 1 and 2. -/
def dupHeaderRequest : HttpRequest := { method := "GET", path := "", query_string := "", headers := [("a", [[49], [50]])], body := [], port := 80 }

/-- Sample message wrapping `dupHeaderRequest`. -/
def dupHeaderMsg : ProtoMessage := .Http { request_id := ⟨[1]⟩, http_msg := .Request dupHeaderRequest }

/-- Sample request whose header value is the single byte 255, not valid
UTF-8. -/
def rawHeaderRequest : HttpRequest := { method := "GET", path := "", query_string := "", headers := [("a", [[255]])], body := [], port := 80 }

/-- Sample message wrapping `rawHeaderRequest`. -/
def rawHeaderMsg : ProtoMessage := .Http { request_id := ⟨[1]⟩, http_msg := .Request rawHeaderRequest }

/-- Sample request with one single-valued UTF-8 header. -/
def utf8HeaderRequest : HttpRequest := { method := "GET", path := "p", query_string := "q", headers := [("a", [[49]])], body := [50], port := 80 }

/-- Sample message wrapping `utf8HeaderRequest`. -/
def utf8HeaderMsg : ProtoMessage := .Http { request_id := ⟨[1]⟩, http_msg := .Request utf8HeaderRequest }

/-- Sample response whose header name a carries the two values 1 and 2. -/
def dupHeaderResponse : HttpResponse := { status_code := 200, headers := [("a", [[49], [50]])], body := [] }

end Forwarder

namespace Ota

/-- `OtaId`: identity of an OTA attempt; the uuid is modelled as a Nat, the
url may be empty in terminal reports. -/
structure OtaId where
  uuid : Nat
  url : String
deriving DecidableEq

/-- `DeployProgress` (percentage and message of an install progress item). -/
structure DeployProgress where
  percentage : Nat
  message : String
deriving DecidableEq

/-- `OtaError` variants of the OTA subsystem. -/
inductive OtaError where
  | Canceled
  | InvalidBaseImage (reason : String)
  | UpdateAlreadyInProgress
  | SystemRollback (reason : String)
  | IoError (reason : String)
  | InternalError (reason : String)
  | Network (reason : String)
deriving DecidableEq

/-- `OtaStatus`: the tagged status variants emitted by the OTA actor. -/
inductive OtaStatus where
  | Idle
  | Init (id : OtaId)
  | Acknowledged (id : OtaId)
  | Downloading (id : OtaId) (percent : Nat)
  | Deploying (id : OtaId) (progress : DeployProgress)
  | Deployed (id : OtaId)
  | Rebooting (id : OtaId)
  | Rebooted
  | Success (id : OtaId)
  | Failure (error : OtaError) (id : Option OtaId)
deriving DecidableEq

/-- `DeployStatus`: one item of the install progress stream returned by
`system.receive_completed()`; the signal of `Completed` is a machine integer
(the tests use -1). -/
inductive DeployStatus where
  | Progress (p : DeployProgress)
  | Completed (signal : Int)
deriving DecidableEq

/-- `PersistentState`: uuid and the boot slot recorded before the swap. -/
structure PersistentState where
  uuid : Nat
  slot : String
deriving DecidableEq

/-- Calls into the updater backend that the startup path performs. -/
inductive SysCall where
  | ReadBootSlot
  | GetPrimary
  | Mark (slot target : String)
deriving DecidableEq

/-- Operations on the persistent state repository. -/
inductive StoreOp where
  | Write (p : PersistentState)
  | Clear
deriving DecidableEq

/-- Responses of the mocked updater backend and state repository, enough to
drive one update attempt: bundle and system compatible strings, the boot slot
before and after the reboot, the primary slot, whether `install_bundle`
returns Ok, the install progress stream and `last_error`. -/
structure SystemEnv where
  bundleCompatible : String
  systemCompatible : String
  bootSlot : String
  primary : String
  installOk : Bool
  deployStream : List DeployStatus
  lastError : Option String
  bootSlotAfter : String
deriving DecidableEq

/-- Modelled from the spec: `Ota::init`, the startup path of the OTA actor
(the engine source is not under src/; behaviour per spec section 4.1 and the
tests ensure_pending_ota_ota_is_done_fail and
ensure_pending_ota_is_done_ota_success). Returns the emitted statuses, the
backend calls and the store operations. With no PersistentState it emits Idle
and starts the normal loop; with PersistentState present it emits Rebooted,
reads the boot slot, reports a rollback failure when the slot did not change
and otherwise marks the primary slot active and reports success with an empty
url; the state is cleared in both cases. -/
def otaInitFull (persisted : Option PersistentState) (bootSlot primary : String) :
    List OtaStatus × List SysCall × List StoreOp :=
  match persisted with
  | none => ([.Idle], [], [])
  | some p =>
    if bootSlot = p.slot then
      ([.Rebooted,
        .Failure (.SystemRollback "Unable to switch slot") (some { uuid := p.uuid, url := "" }),
        .Idle],
       [.ReadBootSlot], [.Clear])
    else
      ([.Rebooted, .Success { uuid := p.uuid, url := "" }, .Idle],
       [.ReadBootSlot, .GetPrimary, .Mark "active" primary], [.Clear])

/-- Modelled from the spec: the handling of the install progress stream (the
engine source is not under src/; behaviour per spec section 4.1 and the tests
handle_ota_event_bundle_install_completed_fail and ota_event_update_success).
Progress items are emitted as Deploying; a Completed item terminates the
stream, with signal 0 deploying successfully and any other signal failing; a
stream that ends without Completed consults last_error and falls back to the
default message. The Bool records whether the deploy succeeded. -/
def deployPhase (id : OtaId) (lastError : Option String) :
    List DeployStatus → List OtaStatus × Bool
  | [] =>
    ([.Failure (.InvalidBaseImage (lastError.getD "Unable to install ota image")) (some id)],
     false)
  | .Progress p :: rest =>
    let r := deployPhase id lastError rest
    (.Deploying id p :: r.1, r.2)
  | .Completed s :: _ =>
    if s = 0 then ([.Deployed id], true)
    else
      ([.Failure (.InvalidBaseImage ("Update failed with signal " ++ toString s)) (some id)],
       false)

/-- Modelled from the spec: the emission trace of one accepted Update run (the
engine source is not under src/; behaviour per spec section 4.1 and the
ota_handler tests). The download emits percent 0 and 100; a compatibility
mismatch fails with the exact bundle/system message; otherwise Deploying 0 is
emitted, an install_bundle error fails directly with the default message
(test ota_event_fail_deployed shows last_error is not consulted there), and
otherwise the progress stream runs; a successful deploy reboots and re-enters
the startup path with the persisted pre-swap slot. -/
def otaUpdateTrace (env : SystemEnv) (id : OtaId) : List OtaStatus :=
  [.Init id, .Acknowledged id, .Downloading id 0, .Downloading id 100] ++
    (if env.bundleCompatible = env.systemCompatible then
      .Deploying id { percentage := 0, message := "" } ::
        (if env.installOk then
          let r := deployPhase id env.lastError env.deployStream
          r.1 ++
            (if r.2 then
              .Rebooting id ::
                (otaInitFull (some { uuid := id.uuid, slot := env.bootSlot })
                  env.bootSlotAfter env.primary).1
            else [.Idle])
        else
          [.Failure (.InvalidBaseImage "Unable to install ota image") (some id), .Idle])
    else
      [.Failure
          (.InvalidBaseImage
            ("bundle " ++ env.bundleCompatible ++ " is not compatible with system " ++
              env.systemCompatible))
          (some id),
        .Idle])

/-- Modelled from the spec: a fresh engine session running one Update: the
startup path with no pending PersistentState (which emits Idle) followed by
the update run. -/
def otaSessionTrace (env : SystemEnv) (id : OtaId) : List OtaStatus :=
  (otaInitFull none env.bootSlot env.primary).1 ++ otaUpdateTrace env id

/-- The install-error outcome exactly as claim C4 words it: on a backend
install error the engine consults `system.last_error()` and fails with its
message, defaulting to the fixed message only when no error is reported. -/
def C4claimInstallErrStatus (lastError : Option String) (id : OtaId) : OtaStatus :=
  .Failure (.InvalidBaseImage (lastError.getD "Unable to install ota image")) (some id)

/-- `OtaMessage` of the handler: the accepted request (the cancellation token
is kept implicit). -/
structure OtaMessage where
  ota_id : OtaId
deriving DecidableEq

/-- The OTA handler front door state: the current in-flight request. -/
structure Handler where
  current : Option OtaMessage
deriving DecidableEq

/-- Modelled from the spec: `check_update_already_in_progress` of the handler
(source not under src/). It reports whether an update is in flight; per the
tests ota_event_update_already_in_progress_same_uuid (bounded status channel
of capacity one drained only afterwards, so any emission would deadlock or
corrupt the asserted trace) it emits nothing for the same uuid, and per
ota_event_update_already_in_progress_different_uuid (exactly two
UpdateAlreadyInProgress failures are counted) it emits the synthetic failure
for a different uuid. -/
def check_update_already_in_progress (cur : Option OtaMessage) (id : OtaId) :
    Bool × List OtaStatus :=
  match cur with
  | none => (false, [])
  | some m =>
    (true,
      if m.ota_id.uuid = id.uuid then []
      else [.Failure .UpdateAlreadyInProgress (some id)])

/-- Modelled from the spec: the Update path of `handle_event` (source not
under src/): when an update is already in flight the handler is left
untouched and no job starts, with emissions per the duplicate check;
otherwise the request is accepted and becomes current. The Bool records
whether a new job started. -/
def handleUpdate (h : Handler) (req : OtaId) : Handler × List OtaStatus × Bool :=
  let c := check_update_already_in_progress h.current req
  if c.1 then (h, c.2, false)
  else ({ current := some { ota_id := req } }, [], true)

/-- The request identity carried by an OTA status, if any. -/
def statusOtaId : OtaStatus → Option OtaId
  | .Idle => none
  | .Rebooted => none
  | .Init id => some id
  | .Acknowledged id => some id
  | .Downloading id _ => some id
  | .Deploying id _ => some id
  | .Deployed id => some id
  | .Rebooting id => some id
  | .Success id => some id
  | .Failure _ oid => oid

/-- Outcome of a Cancel request: the token fires, or a Failure(InternalError)
with the given message is emitted. -/
inductive CancelOutcome where
  | fired
  | failure (message : String)
deriving DecidableEq

/-- Modelled from the spec: the Cancel path of `handle_event` (source not
under src/), with the dispatch the tests pin down: the three verbatim
messages are keyed on the OTA actor's current request (its status identity),
not on the handler's `current` alone — test ota_event_not_canceled_different_uuid
has `current = None` yet reports the different-identifier message. The token
fires only when the actor's request matches and the handler still holds a
matching cancellable request (test ota_event_canceled); a matching but
already terminal request yields the plain message (test
ota_event_not_canceled). -/
def handleCancel (cur : Option OtaMessage) (actorStatus : OtaStatus) (req : OtaId) :
    CancelOutcome :=
  match statusOtaId actorStatus with
  | none => .failure "Unable to cancel OTA request, internal request is empty"
  | some c =>
    if c.uuid = req.uuid then
      match cur with
      | some m =>
        if m.ota_id.uuid = req.uuid then .fired
        else .failure "Unable to cancel OTA request"
      | none => .failure "Unable to cancel OTA request"
    else .failure "Unable to cancel OTA request, they have different identifier"

end Ota

namespace Containers

/-- `ImageStatus` of the container store
(edgehog_store::models::containers::image). -/
inductive ImageStatus where
  | Received
  | Published
  | Pulled
deriving DecidableEq

/-- The observable operations an image resource transition performs, in
order: property sends and unsets on the Astarte client, writes to the
persistent store, and container runtime calls. -/
inductive Op where
  | sendProp (interface ep : String) (value : Bool)
  | unsetProp (interface ep : String)
  | storeUpdateStatus (status : ImageStatus)
  | storeUpdateLocalId
  | storeDeleteImage
  | imagePull
  | imageRemove
deriving DecidableEq

/-- The AvailableImages interface name (properties/image.rs). -/
def availableImagesInterface : String := "io.edgehog.devicemanager.apps.AvailableImages"

/-- The endpoint of the pulled property for an image id
(`AvailableProp::send_field` formats slash id slash field). -/
def pulledEndpoint (id : String) : String := "/" ++ id ++ "/pulled"

/-- `AvailableProp::send_field` (properties/mod.rs): the send happens and a
device error is only logged (`if let Err(err) = res { error!(...) }`), so the
operation trace and the control flow are the same whether or not the device
send fails. -/
def sendFieldOps (interface ep : String) (value : Bool) (deviceFails : Bool) : List Op :=
  [.sendProp interface ep value]

/-- `ImageResource::publish` (resource/image.rs): first send the pulled
property with false, then update the image status in the store to
Published. -/
def publishRun (id : String) (sendFails : Bool) : List Op :=
  sendFieldOps availableImagesInterface (pulledEndpoint id) false sendFails ++
    [.storeUpdateStatus .Published]

/-- `ImageResource::create` (resource/image.rs): pull the image, record the
local id in the store, send the pulled property with true, then update the
image status in the store to Pulled. -/
def createRun (id : String) (sendFails : Bool) : List Op :=
  [.imagePull, .storeUpdateLocalId] ++
    sendFieldOps availableImagesInterface (pulledEndpoint id) true sendFails ++
    [.storeUpdateStatus .Pulled]

/-- Recognizer for a property send operation. -/
def isPropSend : Op → Bool
  | .sendProp _ _ _ => true
  | _ => false

/-- Recognizer for a store status write operation. -/
def isStatusWrite : Op → Bool
  | .storeUpdateStatus _ => true
  | _ => false

end Containers

/-! ### Helper lemmas -/

namespace Forwarder

theorem hexVal_hexChar : ∀ n, n < 16 → hexVal (hexChar n) = some n := by decide

theorem isLowerHexChar_hexChar : ∀ n, n < 16 → isLowerHexChar (hexChar n) = true := by decide

theorem hexDecodeChars_hexEncodeChars (bs : Bytes) (hb : ∀ b ∈ bs, b < 256) :
    hexDecodeChars (hexEncodeChars bs) = some bs := by
  induction bs with
  | nil => rfl
  | cons b t ih =>
    have hblt : b < 256 := hb b (List.mem_cons_self _ _)
    have hhi : b / 16 < 16 := by omega
    have hlo : b % 16 < 16 := Nat.mod_lt _ (by omega)
    have ht : hexDecodeChars (hexEncodeChars t) = some t :=
      ih (fun x hx => hb x (List.mem_cons_of_mem _ hx))
    simp only [hexEncodeChars, hexDecodeChars, hexVal_hexChar _ hhi, hexVal_hexChar _ hlo, ht]
    rw [Nat.div_add_mod]

theorem hexEncodeChars_lower (bs : Bytes) (hb : ∀ b ∈ bs, b < 256) :
    (hexEncodeChars bs).all isLowerHexChar = true := by
  induction bs with
  | nil => rfl
  | cons b t ih =>
    have hblt : b < 256 := hb b (List.mem_cons_self _ _)
    have hhi : b / 16 < 16 := by omega
    have hlo : b % 16 < 16 := Nat.mod_lt _ (by omega)
    simp only [hexEncodeChars, List.all_cons, isLowerHexChar_hexChar _ hhi,
      isLowerHexChar_hexChar _ hlo, Bool.true_and]
    exact ih (fun x hx => hb x (List.mem_cons_of_mem _ hx))

theorem headersRT_encode_ok (hm : HeaderMap) (h : headersRT hm = true) :
    hashmap_to_headermap (headermap_to_hashmap hm) = .ok hm := by
  induction hm with
  | nil => rfl
  | cons e t ih =>
    obtain ⟨n, vs⟩ := e
    simp only [headersRT, List.all_cons, Bool.and_eq_true] at h
    obtain ⟨he, ht⟩ := h
    have iht := ih ht
    simp only [headerEntryRT, Bool.and_eq_true] at he
    obtain ⟨hname, hval⟩ := he
    match vs, hval with
    | [v], hval =>
      simp only [Bool.and_eq_true, beq_iff_eq] at hval
      obtain ⟨hfix, hvv⟩ := hval
      simp only [hashmap_to_headermap, headermap_to_hashmap, List.map_cons] at iht ⊢
      simp only [List.getLast?_singleton, Option.getD_some, hfix]
      split at iht
      case isTrue hall =>
        simp only [Except.ok.injEq] at iht
        rw [if_pos]
        · simp [iht]
        · simp only [List.all_cons, Bool.and_eq_true]
          exact ⟨by simp [hname, hvv], hall⟩
      case isFalse hall => exact absurd iht (by simp)

theorem hashmap_ok_shape (m : HashMapSS) (hm : HeaderMap)
    (h : hashmap_to_headermap m = .ok hm) : hm = m.map (fun e => (e.1, [e.2])) := by
  unfold hashmap_to_headermap at h
  split at h
  · simpa using h.symm
  · exact absurd h (by simp)

theorem ofProtobuf_req_headers (p : ProtobufHttpRequest) (q : HttpRequest)
    (h : HttpRequest.ofProtobuf p = .ok q) :
    q.headers = p.headers.map (fun e => (e.1, [e.2])) := by
  unfold HttpRequest.ofProtobuf at h
  split at h
  · split at h
    case h_1 hs hh =>
      split at h
      · simp only [Except.ok.injEq] at h
        subst h
        exact hashmap_ok_shape _ _ hh
      · exact absurd h (by simp)
    case h_2 => exact absurd h (by simp)
  · exact absurd h (by simp)

theorem ofProtobuf_res_headers (p : ProtobufHttpResponse) (q : HttpResponse)
    (h : HttpResponse.ofProtobuf p = .ok q) :
    q.headers = p.headers.map (fun e => (e.1, [e.2])) := by
  unfold HttpResponse.ofProtobuf at h
  split at h
  · split at h
    · split at h
      case h_1 hs hh =>
        simp only [Except.ok.injEq] at h
        subst h
        exact hashmap_ok_shape _ _ hh
      case h_2 => exact absurd h (by simp)
    · exact absurd h (by simp)
  · exact absurd h (by simp)

end Forwarder

namespace Forwarder

theorem req_roundtrip (r : HttpRequest) (h : wfHttpRequest r = true) :
    HttpRequest.ofProtobuf r.toProtobuf = .ok r := by
  obtain ⟨method, path, qs, headers, body, port⟩ := r
  simp only [wfHttpRequest, Bool.and_eq_true, decide_eq_true_eq] at h
  obtain ⟨⟨hm, hh⟩, hp⟩ := h
  simp [HttpRequest.toProtobuf, HttpRequest.ofProtobuf, hm, hp, headersRT_encode_ok _ hh]

theorem res_roundtrip (r : HttpResponse) (h : wfHttpResponse r = true) :
    HttpResponse.ofProtobuf r.toProtobuf = .ok r := by
  obtain ⟨sc, headers, body⟩ := r
  simp only [wfHttpResponse, Bool.and_eq_true, decide_eq_true_eq] at h
  obtain ⟨⟨h1, h2⟩, hh⟩ := h
  have hlt : sc < 65536 := by omega
  simp [HttpResponse.toProtobuf, HttpResponse.ofProtobuf, hlt, h1, h2,
    headersRT_encode_ok _ hh]

theorem ws_roundtrip (w : WebSocket) (hid : w.socket_id.bytes.isEmpty = false)
    (h : wfWsMessage w.message = true) : WebSocket.ofProtobuf w.toProtobuf = .ok w := by
  obtain ⟨⟨sid⟩, msg⟩ := w
  simp only at hid
  cases msg with
  | Text d => simp [WebSocket.toProtobuf, WebSocket.ofProtobuf, Id.tryFrom, hid]
  | Binary d => simp [WebSocket.toProtobuf, WebSocket.ofProtobuf, Id.tryFrom, hid]
  | Ping d => simp [WebSocket.toProtobuf, WebSocket.ofProtobuf, Id.tryFrom, hid]
  | Pong d => simp [WebSocket.toProtobuf, WebSocket.ofProtobuf, Id.tryFrom, hid]
  | Close code reason =>
    simp only [wfWsMessage, Bool.and_eq_true, decide_eq_true_eq, Bool.not_eq_true',
      beq_eq_false_iff_ne, ne_eq] at h
    obtain ⟨hcode, hreason⟩ := h
    cases reason with
    | none =>
      simp [WebSocket.toProtobuf, WebSocket.ofProtobuf, Id.tryFrom, hid, hcode]
    | some s =>
      have hs : ¬s = "" := fun hc => hreason (by rw [hc])
      simp [WebSocket.toProtobuf, WebSocket.ofProtobuf, Id.tryFrom, hid, hcode, hs]

end Forwarder

/-! ### Claim theorems -/

/-- C7 counterexample: in `ImageResource::publish` the property send is the
first operation and the store write of the new status `Published` the second,
so the store write is not committed before the property send as the claim
states. -/
theorem C7_store_property_order_cex :
    (Containers.publishRun "a1b2" false).findIdx Containers.isPropSend = 0 ∧
    (Containers.publishRun "a1b2" false).findIdx Containers.isStatusWrite = 1 ∧
    decide ((Containers.publishRun "a1b2" false).findIdx Containers.isStatusWrite <
        (Containers.publishRun "a1b2" false).findIdx Containers.isPropSend) = false := by
  refine ⟨rfl, rfl, by decide⟩

/-- C7 (amended): for the image resource operations that update the status
and publish availability (publish and create), the property send is issued
before the store status write, and a property-send failure, swallowed inside
send_field, leaves the operation trace unchanged, so it never prevents nor
rolls back the subsequent store write. -/
theorem C7_store_property_order_amended (id : String) (f : Bool) :
    Containers.publishRun id f = Containers.publishRun id false ∧
    Containers.createRun id f = Containers.createRun id false ∧
    (Containers.publishRun id f).findIdx Containers.isPropSend = 0 ∧
    (Containers.publishRun id f).findIdx Containers.isStatusWrite = 1 ∧
    (Containers.createRun id f).findIdx Containers.isPropSend = 2 ∧
    (Containers.createRun id f).findIdx Containers.isStatusWrite = 3 := by
  refine ⟨rfl, rfl, rfl, ?_, rfl, ?_⟩ <;>
    simp [Containers.publishRun, Containers.createRun, Containers.sendFieldOps,
      List.findIdx, List.findIdx.go, Containers.isPropSend, Containers.isStatusWrite]

/-- C8: converting a tungstenite close with a frame keeps its code and wraps
the reason in some; a close without a frame becomes the default close with
code 1000 and no reason; a raw Frame is rejected with WrongWsFrame; and the
codec's conversion back into tungstenite messages never produces a raw
Frame. -/
theorem C8_ws_close_mapping :
    (∀ f : Forwarder.CloseFrame,
      Forwarder.WebSocketMessage.tryFromTung (.Close (some f)) =
        .ok (.Close f.code (some f.reason))) ∧
    Forwarder.WebSocketMessage.tryFromTung (.Close none) = .ok (.Close 1000 none) ∧
    Forwarder.WebSocketMessage.tryFromTung .Frame = .error .WrongWsFrame ∧
    (∀ m : Forwarder.WebSocketMessage,
      Forwarder.TungMessage.isFrame (Forwarder.WebSocketMessage.toTung m) = false) := by
  refine ⟨fun f => rfl, rfl, rfl, fun m => ?_⟩
  cases m <;> rfl

/-- C9: for a non-empty byte string its Id is accepted, the display form is
made of lower-case hex digits only, hex-decoding the display form returns the
bytes, and the empty byte string is rejected with Empty. -/
theorem C9_id_hex (bs : Forwarder.Bytes) (hne : bs ≠ []) (hb : ∀ b ∈ bs, b < 256) :
    Forwarder.Id.tryFrom bs = .ok ⟨bs⟩ ∧
    (Forwarder.Id.display ⟨bs⟩).data.all Forwarder.isLowerHexChar = true ∧
    Forwarder.hexDecode (Forwarder.Id.display ⟨bs⟩) = some bs ∧
    Forwarder.Id.tryFrom [] = .error .Empty := by
  refine ⟨?_, ?_, ?_, rfl⟩
  · cases bs with
    | nil => exact absurd rfl hne
    | cons b t => rfl
  · exact Forwarder.hexEncodeChars_lower bs hb
  · exact Forwarder.hexDecodeChars_hexEncodeChars bs hb

/-- C9 witness: the theorem applied at the concrete byte string of test
test_id would be "test_id"; here the two bytes 0 and 255 exercise both nibble
ranges, and the empty-rejection conjunct is read off as well. -/
theorem C9_id_hex_witness :
    Forwarder.hexDecode (Forwarder.Id.display ⟨[0, 255]⟩) = some [0, 255] ∧
    Forwarder.Id.tryFrom [] = .error .Empty := by
  have h := C9_id_hex [0, 255] (by decide) (by decide)
  exact ⟨h.2.2.1, h.2.2.2⟩

/-- C1: at startup with PersistentState present the engine emits Rebooted and
reads the boot slot; an unchanged slot yields the SystemRollback failure with
the verbatim message followed by Idle, a changed slot calls get_primary then
mark with target active and emits Success with the persisted uuid and an empty
url followed by Idle; the state is cleared in both cases; with no
PersistentState only the normal-loop Idle is emitted and nothing is read,
called or cleared. -/
theorem C1_pending_ota_startup (p : Ota.PersistentState) (bootSlot primary : String) :
    (bootSlot = p.slot →
      Ota.otaInitFull (some p) bootSlot primary =
        ([.Rebooted,
          .Failure (.SystemRollback "Unable to switch slot")
            (some { uuid := p.uuid, url := "" }),
          .Idle],
         [.ReadBootSlot], [.Clear])) ∧
    (bootSlot ≠ p.slot →
      Ota.otaInitFull (some p) bootSlot primary =
        ([.Rebooted, .Success { uuid := p.uuid, url := "" }, .Idle],
         [.ReadBootSlot, .GetPrimary, .Mark "active" primary], [.Clear])) ∧
    Ota.otaInitFull none bootSlot primary = ([.Idle], [], []) := by
  refine ⟨fun he => ?_, fun hne => ?_, rfl⟩
  · simp [Ota.otaInitFull, he]
  · simp [Ota.otaInitFull, hne]

/-- C1 witness: the startup scenarios of tests
ensure_pending_ota_ota_is_done_fail (persisted slot A, boot slot still A) and
ensure_pending_ota_is_done_ota_success (boot slot moved to B). -/
theorem C1_pending_ota_startup_witness :
    Ota.otaInitFull (some { uuid := 7, slot := "A" }) "A" "rootfs.0" =
      ([.Rebooted,
        .Failure (.SystemRollback "Unable to switch slot") (some { uuid := 7, url := "" }),
        .Idle],
       [.ReadBootSlot], [.Clear]) ∧
    Ota.otaInitFull (some { uuid := 7, slot := "A" }) "B" "rootfs.0" =
      ([.Rebooted, .Success { uuid := 7, url := "" }, .Idle],
       [.ReadBootSlot, .GetPrimary, .Mark "active" "rootfs.0"], [.Clear]) := by
  exact ⟨(C1_pending_ota_startup ⟨7, "A"⟩ "A" "rootfs.0").1 rfl,
    (C1_pending_ota_startup ⟨7, "A"⟩ "B" "rootfs.0").2.1 (by decide)⟩

/-- C3 counterexample: with a request in flight, an Update carrying the same
uuid is accepted as a pure no-op and the handler emits nothing, not the
synthetic Failure(UpdateAlreadyInProgress) the claim states (test
ota_event_update_already_in_progress_same_uuid drains a capacity-one status
channel only after both handle_event calls return: any synthetic emission
there would deadlock the test or corrupt its asserted trace). -/
theorem C3_duplicate_update_cex :
    Ota.handleUpdate { current := some { ota_id := { uuid := 5, url := "u" } } }
        { uuid := 5, url := "u" } =
      ({ current := some { ota_id := { uuid := 5, url := "u" } } }, [], false) ∧
    decide ((Ota.handleUpdate { current := some { ota_id := { uuid := 5, url := "u" } } }
        { uuid := 5, url := "u" }).2.1 =
      [.Failure .UpdateAlreadyInProgress (some { uuid := 5, url := "u" })]) = false := by
  exact ⟨rfl, by decide⟩

/-- C3 (amended): with a request in flight, an Update with the same uuid is
accepted as a no-op with no emission and the running job is undisturbed,
while an Update with a different uuid emits
Failure(UpdateAlreadyInProgress, Some(new_id)) once, also without disturbing
the running job; in both cases no new job starts. -/
theorem C3_duplicate_update_amended (h : Ota.Handler) (m : Ota.OtaMessage)
    (req : Ota.OtaId) (hc : h.current = some m) :
    (m.ota_id.uuid = req.uuid → Ota.handleUpdate h req = (h, [], false)) ∧
    (m.ota_id.uuid ≠ req.uuid →
      Ota.handleUpdate h req =
        (h, [.Failure .UpdateAlreadyInProgress (some req)], false)) := by
  constructor
  · intro he
    simp [Ota.handleUpdate, Ota.check_update_already_in_progress, hc, he]
  · intro hne
    simp [Ota.handleUpdate, Ota.check_update_already_in_progress, hc, hne]

/-- C3 witness: the same-uuid and different-uuid scenarios of the two
already-in-progress tests at concrete requests. -/
theorem C3_duplicate_update_amended_witness :
    Ota.handleUpdate { current := some { ota_id := { uuid := 5, url := "u" } } }
        { uuid := 5, url := "u" } =
      ({ current := some { ota_id := { uuid := 5, url := "u" } } }, [], false) ∧
    Ota.handleUpdate { current := some { ota_id := { uuid := 5, url := "u" } } }
        { uuid := 6, url := "v" } =
      ({ current := some { ota_id := { uuid := 5, url := "u" } } },
       [.Failure .UpdateAlreadyInProgress (some { uuid := 6, url := "v" })], false) := by
  exact ⟨(C3_duplicate_update_amended _ _ _ rfl).1 rfl,
    (C3_duplicate_update_amended _ _ _ rfl).2 (by decide)⟩

/-- C4 counterexample: with a compatible bundle, a failing install_bundle call
and last_error reporting a message, the engine fails with the fixed default
message and not with the last_error message the claim prescribes for the
install-error case (test ota_event_fail_deployed: last_error is not even
mocked there, so the code cannot consult it). -/
theorem C4_install_completion_cex :
    Ota.otaUpdateTrace
        { bundleCompatible := "rauc-demo-x86", systemCompatible := "rauc-demo-x86",
          bootSlot := "B", primary := "", installOk := false, deployStream := [],
          lastError := some "Unable to deploy image", bootSlotAfter := "" }
        { uuid := 1, url := "u" } =
      [.Init { uuid := 1, url := "u" }, .Acknowledged { uuid := 1, url := "u" },
       .Downloading { uuid := 1, url := "u" } 0, .Downloading { uuid := 1, url := "u" } 100,
       .Deploying { uuid := 1, url := "u" } { percentage := 0, message := "" },
       .Failure (.InvalidBaseImage "Unable to install ota image")
         (some { uuid := 1, url := "u" }),
       .Idle] ∧
    decide (Ota.otaUpdateTrace
        { bundleCompatible := "rauc-demo-x86", systemCompatible := "rauc-demo-x86",
          bootSlot := "B", primary := "", installOk := false, deployStream := [],
          lastError := some "Unable to deploy image", bootSlotAfter := "" }
        { uuid := 1, url := "u" } =
      [.Init { uuid := 1, url := "u" }, .Acknowledged { uuid := 1, url := "u" },
       .Downloading { uuid := 1, url := "u" } 0, .Downloading { uuid := 1, url := "u" } 100,
       .Deploying { uuid := 1, url := "u" } { percentage := 0, message := "" },
       Ota.C4claimInstallErrStatus (some "Unable to deploy image") { uuid := 1, url := "u" },
       .Idle]) = false := by
  exact ⟨by decide, by decide⟩

/-- C4 (amended): a Completed item with signal 0 deploys; any non-zero signal
fails with the verbatim signal message; a progress stream that ends without a
Completed item emits its Deploying items and then fails with the last_error
message, defaulting to the fixed message when no error is reported; a failing
install_bundle call fails directly with the fixed default message without
consulting last_error; and every non-deployed outcome of the stream handling
ends in a Failure with status code InvalidBaseImage. -/
theorem C4_install_completion_amended (id : Ota.OtaId) (le : Option String) (s : Int)
    (rest : List Ota.DeployStatus) (ps : List Ota.DeployProgress) (env : Ota.SystemEnv) :
    Ota.deployPhase id le (.Completed 0 :: rest) = ([.Deployed id], true) ∧
    (s ≠ 0 →
      Ota.deployPhase id le (.Completed s :: rest) =
        ([.Failure (.InvalidBaseImage ("Update failed with signal " ++ toString s))
            (some id)],
         false)) ∧
    Ota.deployPhase id le (ps.map .Progress) =
      (ps.map (fun p => Ota.OtaStatus.Deploying id p) ++
        [.Failure (.InvalidBaseImage (le.getD "Unable to install ota image")) (some id)],
       false) ∧
    (env.bundleCompatible = env.systemCompatible → env.installOk = false →
      Ota.otaUpdateTrace env id =
        [.Init id, .Acknowledged id, .Downloading id 0, .Downloading id 100,
         .Deploying id { percentage := 0, message := "" },
         .Failure (.InvalidBaseImage "Unable to install ota image") (some id), .Idle]) ∧
    (∀ stream : List Ota.DeployStatus, (Ota.deployPhase id le stream).2 = false →
      ∃ r t, (Ota.deployPhase id le stream).1 =
        t ++ [.Failure (.InvalidBaseImage r) (some id)]) := by
  refine ⟨by simp [Ota.deployPhase], fun hs => ?_, ?_, fun hc hi => ?_, ?_⟩
  · simp [Ota.deployPhase, hs]
  · induction ps with
    | nil => simp [Ota.deployPhase]
    | cons p t ih => simp [Ota.deployPhase, ih]
  · simp [Ota.otaUpdateTrace, hc, hi]
  · intro stream
    induction stream with
    | nil =>
      intro _
      exact ⟨le.getD "Unable to install ota image", [], rfl⟩
    | cons d t ih =>
      intro hfail
      cases d with
      | Progress p =>
        simp only [Ota.deployPhase] at hfail ⊢
        obtain ⟨r, tl, htl⟩ := ih hfail
        exact ⟨r, .Deploying id p :: tl, by simp [htl]⟩
      | Completed sg =>
        by_cases hsg : sg = 0
        · simp [Ota.deployPhase, hsg] at hfail
        · exact ⟨"Update failed with signal " ++ toString sg, [],
            by simp [Ota.deployPhase, hsg]⟩

/-- C4 witness: the scenario of test
handle_ota_event_bundle_install_completed_fail, a Completed item with signal
-1 while last_error reports a message; the emitted failure carries the
verbatim signal message. -/
theorem C4_install_completion_amended_witness :
    Ota.deployPhase { uuid := 1, url := "u" } (some "Unable to deploy image")
        [.Completed (-1)] =
      ([.Failure (.InvalidBaseImage "Update failed with signal -1")
          (some { uuid := 1, url := "u" })],
       false) := by
  have h := C4_install_completion_amended { uuid := 1, url := "u" }
    (some "Unable to deploy image") (-1) [] []
    { bundleCompatible := "", systemCompatible := "", bootSlot := "", primary := "",
      installOk := false, deployStream := [], lastError := none, bootSlotAfter := "" }
  exact (h.2.1 (by decide)).trans (by decide)

/-- C5: whenever the downloaded bundle reports a compatible string different
from the system's, a fresh session running that Update emits exactly the trace
Idle, Init, Acknowledged, Downloading 0, Downloading 100, then the
InvalidBaseImage failure whose message is the exact bundle/system format,
then Idle. -/
theorem C5_compat_mismatch_trace (env : Ota.SystemEnv) (id : Ota.OtaId)
    (h : env.bundleCompatible ≠ env.systemCompatible) :
    Ota.otaSessionTrace env id =
      [.Idle, .Init id, .Acknowledged id, .Downloading id 0, .Downloading id 100,
       .Failure
         (.InvalidBaseImage
           ("bundle " ++ env.bundleCompatible ++ " is not compatible with system " ++
             env.systemCompatible))
         (some id),
       .Idle] := by
  simp [Ota.otaSessionTrace, Ota.otaUpdateTrace, Ota.otaInitFull, h]

/-- C5 witness: the scenario of test handle_ota_event_bundle_not_compatible
(bundle rauc-demo-x86 against system rauc-demo-arm), with the failure message
shown in its literal exact format. -/
theorem C5_compat_mismatch_trace_witness :
    Ota.otaSessionTrace
        { bundleCompatible := "rauc-demo-x86", systemCompatible := "rauc-demo-arm",
          bootSlot := "B", primary := "", installOk := false, deployStream := [],
          lastError := none, bootSlotAfter := "" }
        { uuid := 1, url := "http://u/ota.bin" } =
      [.Idle, .Init { uuid := 1, url := "http://u/ota.bin" },
       .Acknowledged { uuid := 1, url := "http://u/ota.bin" },
       .Downloading { uuid := 1, url := "http://u/ota.bin" } 0,
       .Downloading { uuid := 1, url := "http://u/ota.bin" } 100,
       .Failure
         (.InvalidBaseImage "bundle rauc-demo-x86 is not compatible with system rauc-demo-arm")
         (some { uuid := 1, url := "http://u/ota.bin" }),
       .Idle] := by
  have h := C5_compat_mismatch_trace
    { bundleCompatible := "rauc-demo-x86", systemCompatible := "rauc-demo-arm",
      bootSlot := "B", primary := "", installOk := false, deployStream := [],
      lastError := none, bootSlotAfter := "" }
    { uuid := 1, url := "http://u/ota.bin" } (by decide)
  exact h.trans (by decide)

/-- C6 counterexample: a Cancel while the handler's current is None but the
actor's request is a different uuid reports the different-identifier message,
not the internal-request-is-empty message the claim associates with current
being None (test ota_event_not_canceled_different_uuid). -/
theorem C6_cancel_messages_cex :
    Ota.handleCancel none (.Deployed { uuid := 2, url := "" }) { uuid := 1, url := "" } =
      .failure "Unable to cancel OTA request, they have different identifier" ∧
    decide (Ota.handleCancel none (.Deployed { uuid := 2, url := "" })
        { uuid := 1, url := "" } =
      .failure "Unable to cancel OTA request, internal request is empty") = false := by
  exact ⟨rfl, by decide⟩

/-- C6 (amended): the three verbatim failure messages are keyed on the OTA
actor's current request rather than the Handler's current alone: no request
identity in the actor's status yields the internal-request-is-empty message; a
request with a different uuid yields the different-identifier message; a
matching uuid with no cancellable handler request yields the plain message;
and a matching uuid with a matching handler request fires the cancellation
token. -/
theorem C6_cancel_messages_amended (cur : Option Ota.OtaMessage) (st : Ota.OtaStatus)
    (req : Ota.OtaId) :
    (Ota.statusOtaId st = none →
      Ota.handleCancel cur st req =
        .failure "Unable to cancel OTA request, internal request is empty") ∧
    (∀ c, Ota.statusOtaId st = some c → c.uuid ≠ req.uuid →
      Ota.handleCancel cur st req =
        .failure "Unable to cancel OTA request, they have different identifier") ∧
    (∀ c m, Ota.statusOtaId st = some c → c.uuid = req.uuid → cur = some m →
      m.ota_id.uuid = req.uuid → Ota.handleCancel cur st req = .fired) ∧
    (∀ c, Ota.statusOtaId st = some c → c.uuid = req.uuid → cur = none →
      Ota.handleCancel cur st req = .failure "Unable to cancel OTA request") := by
  refine ⟨fun hn => ?_, fun c hc hne => ?_, fun c m hc he hcur hm => ?_,
    fun c hc he hcur => ?_⟩
  · simp [Ota.handleCancel, hn]
  · simp [Ota.handleCancel, hc, hne]
  · simp [Ota.handleCancel, hc, he, hcur, hm]
  · simp [Ota.handleCancel, hc, he, hcur]

/-- C6 witness: the four concrete scenarios of tests
ota_event_not_canceled_empty, ota_event_not_canceled_different_uuid,
ota_event_canceled and ota_event_not_canceled. -/
theorem C6_cancel_messages_amended_witness :
    Ota.handleCancel none .Idle { uuid := 1, url := "" } =
      .failure "Unable to cancel OTA request, internal request is empty" ∧
    Ota.handleCancel none (.Deployed { uuid := 2, url := "" }) { uuid := 1, url := "" } =
      .failure "Unable to cancel OTA request, they have different identifier" ∧
    Ota.handleCancel (some { ota_id := { uuid := 1, url := "" } })
        (.Acknowledged { uuid := 1, url := "" }) { uuid := 1, url := "" } = .fired ∧
    Ota.handleCancel none (.Success { uuid := 1, url := "" }) { uuid := 1, url := "" } =
      .failure "Unable to cancel OTA request" := by
  refine ⟨(C6_cancel_messages_amended none .Idle { uuid := 1, url := "" }).1 rfl,
    (C6_cancel_messages_amended none (.Deployed { uuid := 2, url := "" })
        { uuid := 1, url := "" }).2.1 { uuid := 2, url := "" } rfl (by decide),
    (C6_cancel_messages_amended (some { ota_id := { uuid := 1, url := "" } })
        (.Acknowledged { uuid := 1, url := "" }) { uuid := 1, url := "" }).2.2.1
      { uuid := 1, url := "" } { ota_id := { uuid := 1, url := "" } } rfl rfl rfl rfl,
    (C6_cancel_messages_amended none (.Success { uuid := 1, url := "" })
        { uuid := 1, url := "" }).2.2.2 { uuid := 1, url := "" } rfl rfl rfl⟩

/-- C2 counterexample: three messages that are well-formed exactly as the
claim words it (non-empty ids, a listed variant) yet do not round-trip: a
Close whose reason is some empty string (decodes to no reason), a request
whose header name carries two values (the HashMap keeps only the last), and a
request whose header value is not valid UTF-8 (replaced lossily). -/
theorem C2_roundtrip_cex :
    (Forwarder.claimWellFormed Forwarder.closeEmptyReasonMsg = true ∧
      decide (Forwarder.ProtoMessage.decode
          (Forwarder.ProtoMessage.encode Forwarder.closeEmptyReasonMsg) =
        .ok Forwarder.closeEmptyReasonMsg) = false) ∧
    (Forwarder.claimWellFormed Forwarder.dupHeaderMsg = true ∧
      decide (Forwarder.ProtoMessage.decode
          (Forwarder.ProtoMessage.encode Forwarder.dupHeaderMsg) =
        .ok Forwarder.dupHeaderMsg) = false) ∧
    (Forwarder.claimWellFormed Forwarder.rawHeaderMsg = true ∧
      decide (Forwarder.ProtoMessage.decode
          (Forwarder.ProtoMessage.encode Forwarder.rawHeaderMsg) =
        .ok Forwarder.rawHeaderMsg) = false) := by
  decide

/-- C2 (amended): decode after encode is the identity for every well-formed
ProtoMessage, where beyond the claim's conditions (non-empty ids, a listed
variant) well-formedness also requires what the codec needs: a valid method
token, u16 port and close codes, status codes in 100..=999, every header name
carrying exactly one legal value that is a fixed point of the lossy UTF-8
conversion, and a close reason that is not some empty string. -/
theorem C2_roundtrip_amended (m : Forwarder.ProtoMessage)
    (h : Forwarder.wfProtoMessage m = true) :
    Forwarder.ProtoMessage.decode (Forwarder.ProtoMessage.encode m) = .ok m := by
  cases m with
  | Http hh =>
    obtain ⟨⟨rid⟩, msg⟩ := hh
    simp only [Forwarder.wfProtoMessage, Bool.and_eq_true, Bool.not_eq_true'] at h
    obtain ⟨hrid, hmsg⟩ := h
    cases msg with
    | Request r =>
      simp [Forwarder.ProtoMessage.encode, Forwarder.ProtoMessage.decode,
        Forwarder.ProtoMessage.toProtobufProtocol, Forwarder.ProtoMessage.ofProtobufProtocol,
        Forwarder.Http.toProtobuf, Forwarder.Http.ofProtobuf, Forwarder.Id.tryFrom, hrid,
        Forwarder.req_roundtrip r hmsg]
    | Response r =>
      simp [Forwarder.ProtoMessage.encode, Forwarder.ProtoMessage.decode,
        Forwarder.ProtoMessage.toProtobufProtocol, Forwarder.ProtoMessage.ofProtobufProtocol,
        Forwarder.Http.toProtobuf, Forwarder.Http.ofProtobuf, Forwarder.Id.tryFrom, hrid,
        Forwarder.res_roundtrip r hmsg]
  | WebSocket w =>
    simp only [Forwarder.wfProtoMessage, Bool.and_eq_true, Bool.not_eq_true'] at h
    obtain ⟨hsid, hmsg⟩ := h
    simp [Forwarder.ProtoMessage.encode, Forwarder.ProtoMessage.decode,
      Forwarder.ProtoMessage.toProtobufProtocol, Forwarder.ProtoMessage.ofProtobufProtocol,
      Forwarder.ws_roundtrip w hsid hmsg]

/-- C2 witness: a well-formed request message with one single-valued UTF-8
header round-trips to itself. -/
theorem C2_roundtrip_amended_witness :
    Forwarder.ProtoMessage.decode (Forwarder.ProtoMessage.encode Forwarder.utf8HeaderMsg) =
      .ok Forwarder.utf8HeaderMsg :=
  C2_roundtrip_amended Forwarder.utf8HeaderMsg (by decide)

/-- C10: encoding a request or response converts its header map through a
HashMap keyed by name, keeping per name only the last value passed through
the lossy UTF-8 conversion; the byte 255 is not valid UTF-8 and is replaced;
and consequently a message whose header map holds two values under one name
never survives encode-then-decode. -/
theorem C10_header_lossy (r : Forwarder.HttpRequest) (res : Forwarder.HttpResponse)
    (hr : ∃ e ∈ r.headers, 2 ≤ e.2.length)
    (hres : ∃ e ∈ res.headers, 2 ≤ e.2.length) :
    (Forwarder.HttpRequest.toProtobuf r).headers =
      r.headers.map (fun e => (e.1, Forwarder.utf8Lossy (e.2.getLast?.getD []))) ∧
    (Forwarder.HttpResponse.toProtobuf res).headers =
      res.headers.map (fun e => (e.1, Forwarder.utf8Lossy (e.2.getLast?.getD []))) ∧
    Forwarder.isUtf8 [255] = false ∧
    Forwarder.utf8Lossy [255] = Forwarder.replacementBytes ∧
    decide (Forwarder.HttpRequest.ofProtobuf (Forwarder.HttpRequest.toProtobuf r) =
      .ok r) = false ∧
    decide (Forwarder.HttpResponse.ofProtobuf (Forwarder.HttpResponse.toProtobuf res) =
      .ok res) = false := by
  refine ⟨rfl, rfl, by decide, by decide, decide_eq_false ?_, decide_eq_false ?_⟩
  · intro heq
    have hsh := Forwarder.ofProtobuf_req_headers _ _ heq
    obtain ⟨e, he, hlen⟩ := hr
    rw [hsh] at he
    obtain ⟨x, hx, hxe⟩ := List.mem_map.mp he
    rw [← hxe] at hlen
    simp at hlen
  · intro heq
    have hsh := Forwarder.ofProtobuf_res_headers _ _ heq
    obtain ⟨e, he, hlen⟩ := hres
    rw [hsh] at he
    obtain ⟨x, hx, hxe⟩ := List.mem_map.mp he
    rw [← hxe] at hlen
    simp at hlen

/-- C10 witness: a request and a response whose header name a carries the two
values 1 and 2 fail to round-trip. -/
theorem C10_header_lossy_witness :
    decide (Forwarder.HttpRequest.ofProtobuf
        (Forwarder.HttpRequest.toProtobuf Forwarder.dupHeaderRequest) =
      .ok Forwarder.dupHeaderRequest) = false ∧
    decide (Forwarder.HttpResponse.ofProtobuf
        (Forwarder.HttpResponse.toProtobuf Forwarder.dupHeaderResponse) =
      .ok Forwarder.dupHeaderResponse) = false := by
  have h := C10_header_lossy Forwarder.dupHeaderRequest Forwarder.dupHeaderResponse
    (by decide) (by decide)
  exact ⟨h.2.2.2.2.1, h.2.2.2.2.2⟩

end Edgehog
